import Mathlib

/-!
Shallow embedding of the deaths-door backend core (Python, `src/backend/src/deaths_door`)
and proofs about the claims of its specification.

The embedding mirrors, file by file:
  * `alignment.py`, `character_type.py`, `changes.py`  — plain enums / records;
  * `character.py`                                     — `Character`, name normalization, `is_named`;
  * `player.py`                                        — `Player` and its constructor;
  * `scripts/trouble_brewing.py` and the character/traveler modules — the concrete
    Trouble Brewing roster (names, categories, alignments, status-effect names, changes);
  * `game.py`                                          — the `Game` aggregate and its operations;
  * `routes/players.py`, `routes/characters.py`        — the handlers the claims cite
    (role-fetch poll loop, multi-role add, add-player), modelled as pure functions,
    with the poll loop additionally reflected as an event trace;
  * `timer_state.py`                                   — the tick step of `TimerState.handle_tick`;
  * `obs_manager.py`                                   — the reconnect/backoff state machine.

Python `ValueError` is embedded as `Except String`; HTTP errors as an explicit
`HttpError` record (status code plus detail).  Mutation is embedded as explicit
state passing: each handler returns the post-state `Game` together with its result,
so "no partial mutation" is a provable statement about the returned state.
-/

namespace DeathsDoor

/-- `alignment.py`: the alignment of a role. -/
inductive Alignment where
  | good
  | evil
  | unknown
deriving DecidableEq, Repr

/-- `character_type.py`: the category of a role.  The `traveler` member is the
`CharacterType.TRAVELER` value used by every traveler character module. -/
inductive CharacterType where
  | townsfolk
  | outsider
  | minion
  | demon
  | traveler
deriving DecidableEq, Repr

/-- `changes.py`: net changes to the number of roles of each category. -/
structure Changes where
  townsfolk : Option Int := none
  outsider : Option Int := none
  minion : Option Int := none
  demon : Option Int := none
deriving DecidableEq, Repr

/-- `character.py`: a character in the script.  `status_effects` holds the `name`
fields of the character's `StatusEffect` objects (`status_effects.py`).

`persistent_effect_names` — Modelled from the spec: the spec's data model gives every
Character a `persistentEffectNames` set ("names of status effects this character is
the source of, subject to cascade removal on death", spec section 3); the field and the
cascade that consumes it are absent from `src/` (only the route caller
`routes/players.py` and the tests `test_status_effect_removal.py` refer to them). -/
structure Character where
  name : String
  description : String
  category : CharacterType
  alignment : Alignment
  status_effects : List String
  changes : Option Changes := none
  persistent_effect_names : List String := []
deriving DecidableEq, Repr

/-- `character.py` `Character.normalize_name_for_comparison`: convert the name to
lowercase and remove surrounding whitespace for comparison (Python
`name.lower().strip()`).  Spelled out over the character list so that the kernel
can evaluate it (`String.toLower`/`String.trim` are opaque to kernel reduction);
lowercasing is ASCII, and surrounding whitespace is stripped from both ends. -/
def normalize_name_for_comparison (name : String) : String :=
  ⟨(((name.data.map Char.toLower).dropWhile Char.isWhitespace).reverse.dropWhile
      Char.isWhitespace).reverse⟩

/-- `character.py` `Character.is_named`: check if the character matches the given name. -/
def Character.is_named (c : Character) (name : String) : Bool :=
  normalize_name_for_comparison c.name == normalize_name_for_comparison name

/-- `player.py`: a human playing the game.  `status_effects` is the list of
status-effect names on the player. -/
structure Player where
  name : String
  character : Character
  alignment : Alignment
  is_alive : Bool := true
  has_used_dead_vote : Bool := false
  status_effects : List String
deriving DecidableEq, Repr

/-- `player.py` `Player.__init__`: create a new player, getting their alignment
from the character. -/
def Player.new (name : String) (character : Character) : Player :=
  { name := name
    character := character
    alignment := character.alignment
    is_alive := true
    has_used_dead_vote := false
    status_effects := [] }

/-- `script_name.py`: the name of a script. -/
inductive ScriptName where
  | trouble_brewing
  | sects_and_violets
  | bad_moon_rising
deriving DecidableEq, Repr

/-- `script.py` / `scripts/trouble_brewing.py`: a script supplies its roster of
characters and its traveler pool (the night-step tables are not needed by any claim). -/
structure Script where
  name : ScriptName
  characters : List Character
  travelers : List Character
deriving DecidableEq, Repr

/-- Modelled from the spec: `ScriptRegistry.getCharacter(name) -> Character | absent`.
`game.py` calls `self.script.get_character(...)` but no `get_character` method exists
under `src/` (only its callers do); the spec treats it as the external registry lookup.
It is modelled as the first roster character matching `is_named`, the same matching
used by every lookup that is present in `src/`. -/
def Script.get_character (s : Script) (name : String) : Option Character :=
  s.characters.find? (fun c => c.is_named name)

/-- `characters/trouble_brewing/washerwoman.py`. -/
def washerwoman : Character :=
  { name := "Washerwoman"
    description := "You start knowing that 1 of 2 players is a particular Townsfolk."
    category := .townsfolk
    alignment := .good
    status_effects := [] }

/-- `characters/trouble_brewing/librarian.py`. -/
def librarian : Character :=
  { name := "Librarian"
    description := "You start knowing that 1 of 2 players is a particular Outsider."
      ++ " (Or that zero are in play)"
    category := .townsfolk
    alignment := .good
    status_effects := [] }

/-- `characters/trouble_brewing/investigator.py`.  Its status effects are
`InvestigatorMinion` and `InvestigatorWrong` (`status_effects.py`). -/
def investigator : Character :=
  { name := "Investigator"
    description := "You start knowing that 1 of 2 players is a particular Minion."
    category := .townsfolk
    alignment := .good
    status_effects := ["Investigator\x27s Minion", "Investigator\x27s Wrong"] }

/-- `characters/trouble_brewing/chef.py`. -/
def chef : Character :=
  { name := "Chef"
    description := "You start knowing how many pairs of evil players are"
      ++ " neighboring each other."
    category := .townsfolk
    alignment := .good
    status_effects := [] }

/-- `characters/trouble_brewing/empath.py`. -/
def empath : Character :=
  { name := "Empath"
    description := "Each night, you learn how many of your 2 alive neighbors are evil."
    category := .townsfolk
    alignment := .good
    status_effects := [] }

/-- `characters/trouble_brewing/fortune_teller.py`.  Its status effect is `RedHerring`. -/
def fortune_teller : Character :=
  { name := "Fortune Teller"
    description := "Each night, choose 2 players: you learn if either is a Demon."
      ++ " There is 1 good player that registers falsely to you."
    category := .townsfolk
    alignment := .good
    status_effects := ["Fortune Teller\x27s Red Herring"] }

/-- `characters/trouble_brewing/undertaker.py`. -/
def undertaker : Character :=
  { name := "Undertaker"
    description := "Each night*, you learn a character that died by execution today."
    category := .townsfolk
    alignment := .good
    status_effects := [] }

/-- `characters/trouble_brewing/monk.py`.  Its `persistent_effect_names` is modelled
from the repository's cascade tests: the Monk is the source of the "Safe" effect. -/
def monk : Character :=
  { name := "Monk"
    description := "Each night*, choose a player (not yourself):"
      ++ " they are safe from the Demon tonight."
    category := .townsfolk
    alignment := .good
    status_effects := []
    persistent_effect_names := ["Safe"] }

/-- `characters/trouble_brewing/ravenkeeper.py`. -/
def ravenkeeper : Character :=
  { name := "Ravenkeeper"
    description := "If you die at night, you are woken to choose a player: "
      ++ "you learn their character."
    category := .townsfolk
    alignment := .good
    status_effects := [] }

/-- `characters/trouble_brewing/virgin.py`. -/
def virgin : Character :=
  { name := "Virgin"
    description := "The 1st time you are nominated, if the nominator is a Townsfolk, "
      ++ "they are executed."
    category := .townsfolk
    alignment := .good
    status_effects := [] }

/-- `characters/trouble_brewing/slayer.py`.  Its status effect is `NoAbility`. -/
def slayer : Character :=
  { name := "Slayer"
    description := "Once per game, during the day, publicly choose a player: "
      ++ "if they are the Demon, they die."
    category := .townsfolk
    alignment := .good
    status_effects := ["No Ability"] }

/-- `characters/trouble_brewing/soldier.py`. -/
def soldier : Character :=
  { name := "Soldier"
    description := "You are safe from the Demon."
    category := .townsfolk
    alignment := .good
    status_effects := [] }

/-- `characters/trouble_brewing/mayor.py`. -/
def mayor : Character :=
  { name := "Mayor"
    description := "If no execution occurs while only 3 players live, you win. "
      ++ "If you die at night, another player might die instead."
    category := .townsfolk
    alignment := .good
    status_effects := [] }

/-- `characters/trouble_brewing/butler.py`.  Its status effect is `ButlersMaster`;
its `persistent_effect_names` is modelled from the repository's cascade tests. -/
def butler : Character :=
  { name := "Butler"
    description := "Each night, choose a player (not yourself): tomorrow,"
      ++ " you may only vote if they are."
      ++ " You cannot be drunk or poisoned."
    category := .outsider
    alignment := .good
    status_effects := ["Butler\x27s Master"]
    persistent_effect_names := ["Butler\x27s Master"] }

/-- `characters/trouble_brewing/drunk.py`. -/
def drunk : Character :=
  { name := "Drunk"
    description := "You do not know you are the Drunk. You think you are a Townsfolk, "
      ++ "but your ability malfunctions."
    category := .outsider
    alignment := .good
    status_effects := [] }

/-- `characters/trouble_brewing/recluse.py`. -/
def recluse : Character :=
  { name := "Recluse"
    description := "You might register as evil & as a Minion or Demon, even if dead."
    category := .outsider
    alignment := .good
    status_effects := [] }

/-- `characters/trouble_brewing/saint.py`. -/
def saint : Character :=
  { name := "Saint"
    description := "If you die by execution, you lose."
    category := .outsider
    alignment := .good
    status_effects := [] }

/-- `characters/trouble_brewing/poisoner.py`.  Its `persistent_effect_names` is
modelled from the spec's cascade example (the Poisoner is the source of "Poisoned")
and the repository's cascade tests. -/
def poisoner : Character :=
  { name := "Poisoner"
    description := "Each night, choose a player:"
      ++ " their ability malfunctions tonight and tomorrow day."
    category := .minion
    alignment := .evil
    status_effects := []
    persistent_effect_names := ["Poisoned"] }

/-- `characters/trouble_brewing/spy.py`. -/
def spy : Character :=
  { name := "Spy"
    description := "Each night, you see the Grimoire. "
      ++ "You might register as good & as a Townsfolk or Outsider, even if dead."
    category := .minion
    alignment := .evil
    status_effects := [] }

/-- `characters/trouble_brewing/baron.py`: the only character with a `changes` record. -/
def baron : Character :=
  { name := "Baron"
    description := "You have no ability. [There are 2 extra Outsiders in play]"
    category := .minion
    alignment := .evil
    status_effects := []
    changes := some { outsider := some 2 } }

/-- `characters/trouble_brewing/scarlet_woman.py`.  Its status effect is `IsTheDemon`. -/
def scarlet_woman : Character :=
  { name := "Scarlet Woman"
    description := "If there are 5 or more players alive & the Demon dies,"
      ++ " you become the Demon. (Travellers do not count)"
    category := .minion
    alignment := .evil
    status_effects := ["Is the Demon"] }

/-- `characters/trouble_brewing/imp.py`.  Its status effects are `IsTheDrunk` and `Dead`. -/
def imp : Character :=
  { name := "Imp"
    description := "Each night*, choose a player: they die. "
      ++ "If you chose yourself, you die & a Minion becomes the Imp."
    category := .demon
    alignment := .evil
    status_effects := ["Is the Drunk", "Dead"] }

/-- `travelers/trouble_brewing/thief.py`. -/
def thief : Character :=
  { name := "Thief"
    description := "Each night, choose a player (not yourself);"
      ++ " their vote counts negatively tomorrow."
    category := .traveler
    alignment := .unknown
    status_effects := [] }

/-- `travelers/trouble_brewing/bureaucrat.py`. -/
def bureaucrat : Character :=
  { name := "Bureaucrat"
    description := "Each night, choose a player (not yourself);"
      ++ " their vote counts as 3 votes tomorrow."
    category := .traveler
    alignment := .unknown
    status_effects := [] }

/-- `travelers/trouble_brewing/gunslinger.py`. -/
def gunslinger : Character :=
  { name := "Gunslinger"
    description := "Each day, after the 1st vote has been tallied,"
      ++ " you may choose a player that voted: they die."
    category := .traveler
    alignment := .unknown
    status_effects := [] }

/-- `travelers/trouble_brewing/scapegoat.py`. -/
def scapegoat : Character :=
  { name := "Scapegoat"
    description := "If a player of your alignment is executed,"
      ++ " you might be executed instead."
    category := .traveler
    alignment := .unknown
    status_effects := [] }

/-- `travelers/trouble_brewing/beggar.py`. -/
def beggar : Character :=
  { name := "Beggar"
    description := "You must use a vote token to vote."
      ++ " If a dead player gives you theirs, you learn their alignment."
      ++ " You are sober & healthy."
    category := .traveler
    alignment := .unknown
    status_effects := [] }

/-- `scripts/trouble_brewing.py` `TroubleBrewing`: the full roster and traveler pool,
in source order. -/
def trouble_brewing : Script :=
  { name := .trouble_brewing
    characters :=
      [washerwoman, librarian, investigator, chef, empath, fortune_teller,
       undertaker, monk, ravenkeeper, virgin, slayer, soldier, mayor, butler,
       drunk, recluse, saint, poisoner, spy, baron, scarlet_woman, imp]
    travelers := [thief, bureaucrat, gunslinger, scapegoat, beggar] }

/-- `scripts/registry.py` `get_script_by_name`: only Trouble Brewing is registered. -/
def get_script_by_name : ScriptName → Option Script
  | .trouble_brewing => some trouble_brewing
  | _ => none

/-- `game.py` `Game`: the session aggregate.  `script`, `included_roles`, `players`
and `should_reveal_roles` (class default `False`) are the fields written by `Game` itself.

`current_night_step` / `is_first_night` — Modelled from the spec: the night-phase
bookmark with default `("Dusk", true)` (spec section 3).  No code under `src/`
initializes these fields (only their readers in `routes/game.py` and the test
`test_night_phase_defaults` are present), so the defaults are taken from the spec. -/
structure Game where
  script : Script
  included_roles : List Character
  players : List Player
  should_reveal_roles : Bool := false
  current_night_step : String := "Dusk"
  is_first_night : Bool := true
deriving DecidableEq, Repr

/-- `game.py` `Game.__init__`: create a new game for a script name, raising
`ValueError` for an unregistered script.  The aggregate's other fields start at
their defaults. -/
def Game.new (script_name : ScriptName) : Except String Game :=
  match get_script_by_name script_name with
  | none => .error "Invalid script"
  | some script =>
    .ok { script := script
          included_roles := []
          players := []
          should_reveal_roles := false
          current_night_step := "Dusk"
          is_first_night := true }

/-- `game.py` `Game.include_role`: look the role up in the script and append it to
`included_roles` (no duplicate check is performed). -/
def Game.include_role (g : Game) (role_name : String) : Except String Game :=
  match g.script.get_character role_name with
  | none => .error ("Role not found: " ++ role_name)
  | some character =>
    .ok { g with included_roles := g.included_roles ++ [character] }

/-- `game.py` `Game.remove_role`: remove the first included role matching the name,
raising `ValueError` when none matches. -/
def Game.remove_role (g : Game) (role_name : String) : Except String Game :=
  match g.included_roles.find? (fun role => role.is_named role_name) with
  | none => .error ("Role not in game: " ++ role_name)
  | some role =>
    .ok { g with included_roles := g.included_roles.erase role }

/-- `game.py` `Game.add_player_with_character`: remove the character from the
included pool, create the player, and append them. -/
def Game.add_player_with_character (g : Game) (name : String) (character : Character) :
    Game × Player :=
  let player := Player.new name character
  ({ g with
      included_roles := g.included_roles.erase character
      players := g.players ++ [player] },
   player)

/-- `game.py` `Game.add_player_with_role`: require a nonempty pool, find the first
included role matching the name, and hand off to `add_player_with_character`. -/
def Game.add_player_with_role (g : Game) (name : String) (role_name : String) :
    Except String (Game × Player) :=
  if g.included_roles.length = 0 then
    .error "No roles to assign"
  else
    match g.included_roles.find? (fun char => char.is_named role_name) with
    | none => .error ("Role " ++ role_name ++ " not found in included roles")
    | some character => .ok (g.add_player_with_character name character)

/-- `game.py` `Game.add_player_with_random_role`: `secrets.choice` picks an element
of the nonempty pool; the choice is embedded as an arbitrary index reduced modulo
the pool size. -/
def Game.add_player_with_random_role (g : Game) (name : String) (choice : Nat) :
    Except String (Game × Player) :=
  if h : g.included_roles = [] then
    .error "No roles to assign"
  else
    .ok (g.add_player_with_character name
      (g.included_roles.get
        ⟨choice % g.included_roles.length,
         Nat.mod_lt choice (List.length_pos.mpr h)⟩))

/-- `game.py` `Game.get_player_by_name`: first player with exactly this name. -/
def Game.get_player_by_name (g : Game) (name : String) : Option Player :=
  g.players.find? (fun player => player.name == name)

/-- `game.py` `Game.get_unclaimed_travelers`: travelers of the script not claimed
by any player. -/
def Game.get_unclaimed_travelers (g : Game) : List Character :=
  let claimed_characters := g.players.map (fun player => player.character)
  g.script.travelers.filter (fun traveler => !claimed_characters.contains traveler)

/-- `game.py` `Game.add_player_as_traveler`: require the traveler to exist and be
unclaimed (matched by exact name equality), then append the new player; the
traveler is never put into `included_roles`. -/
def Game.add_player_as_traveler (g : Game) (name : String) (traveler_name : String) :
    Except String (Game × Player) :=
  match g.get_unclaimed_travelers.find? (fun traveler => traveler.name == traveler_name) with
  | none => .error ("Traveler not found or in game: " ++ traveler_name)
  | some traveler =>
    let player := Player.new name traveler
    .ok ({ g with players := g.players ++ [player] }, player)

/-- `game.py` `Game.remove_player_by_name`: remove the player and append their
character back onto `included_roles`. -/
def Game.remove_player_by_name (g : Game) (name : String) : Except String Game :=
  match g.get_player_by_name name with
  | none => .error ("Player not found: " ++ name)
  | some player =>
    .ok { g with
            players := g.players.erase player
            included_roles := g.included_roles ++ [player.character] }

/-- Modelled from the spec: `Game.set_player_alive_status`, the status-effect
cascade (spec section 4.3).  The method is called by `routes/players.py`
`set_player_alive` and exercised by `test_status_effect_removal.py`, but its
definition is absent from `src/`.  Per the spec: the cascade triggers only on the
alive-to-dead transition; it looks up the dying player's character's
`persistent_effect_names` and removes, from every *other* player, every status
effect whose name is in that set, leaving other effects untouched; resurrection
(new value `true`) performs no cleanup and restores nothing.  Players are
identified by name (unique within a session per the spec's data model). -/
def Game.set_player_alive_status (g : Game) (name : String) (is_alive : Bool) :
    Except String Game :=
  match g.get_player_by_name name with
  | none => .error ("Player not found: " ++ name)
  | some player =>
    if player.is_alive && !is_alive then
      let names := player.character.persistent_effect_names
      .ok { g with players := g.players.map (fun q =>
              if q.name = player.name then
                { q with is_alive := is_alive }
              else
                { q with status_effects :=
                    q.status_effects.filter (fun e => decide (e ∉ names)) }) }
    else
      .ok { g with players := g.players.map (fun q =>
              if q.name = player.name then { q with is_alive := is_alive } else q) }

/-- An HTTP error raised by a route handler (`fastapi.HTTPException`). -/
structure HttpError where
  status : Nat
  detail : String
deriving DecidableEq, Repr

/-- `routes/players.py` `add_player`: inside the locked game, reject a duplicate
player name with 409 Conflict before any mutation, otherwise assign a random role
(`ValueError` becomes 400).  The post-state game is returned alongside the result,
so the error cases exhibit the unchanged state. -/
def route_add_player (g : Game) (name : String) (choice : Nat) :
    Game × Except HttpError Player :=
  match g.get_player_by_name name with
  | some _ =>
    (g, .error { status := 409, detail := "Player with name " ++ name ++ " already exists." })
  | none =>
    match g.add_player_with_random_role name choice with
    | .error e => (g, .error { status := 400, detail := e })
    | .ok (g2, player) => (g2, .ok player)

/-- `routes/characters.py` `add_role_multi`, validation phase: resolve every
requested name against the script, failing with 400 on the first name that does
not resolve; no game state is touched in this phase. -/
def resolve_roles (g : Game) : List String → Except HttpError (List Character)
  | [] => .ok []
  | name :: rest =>
    match g.script.get_character name with
    | none => .error { status := 400, detail := "Role not found: " ++ name }
    | some character => (resolve_roles g rest).map (fun cs => character :: cs)

/-- `routes/characters.py` `add_role_multi`: validate all names first, then append
all resolved characters; on a validation failure the game is returned unchanged. -/
def add_role_multi (g : Game) (names : List String) : Game × Except HttpError Nat :=
  match resolve_roles g names with
  | .error e => (g, .error e)
  | .ok characters =>
    ({ g with included_roles := g.included_roles ++ characters }, .ok characters.length)

/-- `routes/players.py` `get_player_role`, constant `ROLE_REVEAL_TIMEOUT_ATTEMPTS`. -/
def ROLE_REVEAL_TIMEOUT_ATTEMPTS : Nat := 100

/-- The poll loop of `routes/players.py` `get_player_role`:
`while not should_reveal_roles and polling_attempts < max: sleep; attempts += 1`.
`f k` is the value `should_reveal_roles` reads at the condition evaluation made
with `polling_attempts = k`; the function returns the final `polling_attempts`.
`fuel` is `max - k`, so the loop also evaluates (and ignores) the flag once at
`polling_attempts = max`. -/
def polling_attempts_from (f : Nat → Bool) : Nat → Nat → Nat
  | 0, k => k
  | fuel + 1, k => if f k then k else polling_attempts_from f fuel (k + 1)

/-- Final value of `polling_attempts` in `get_player_role` for flag schedule `f`. -/
def polling_attempts (f : Nat → Bool) : Nat :=
  polling_attempts_from f ROLE_REVEAL_TIMEOUT_ATTEMPTS 0

/-- Outcome of the bounded reveal wait in `get_player_role`. -/
inductive WaitOutcome where
  | success
  | timeout
deriving DecidableEq, Repr

/-- `routes/players.py` `get_player_role`, after the loop:
`if polling_attempts >= ROLE_REVEAL_TIMEOUT_ATTEMPTS: raise 408` else return. -/
def wait_for_reveal (f : Nat → Bool) : WaitOutcome :=
  if ROLE_REVEAL_TIMEOUT_ATTEMPTS ≤ polling_attempts f then .timeout else .success

/-- Lock/poll events of the `get_player_role` handler, in program order. -/
inductive PollEvent where
  | acquire
  | check (value : Bool)
  | sleep
  | release
deriving DecidableEq, Repr

/-- Events produced by the poll loop of `get_player_role` for flag schedule `f`:
each condition evaluation emits a `check`, each loop body emits a `sleep`. -/
def poll_events (f : Nat → Bool) : Nat → Nat → List PollEvent
  | 0, k => [.check (f k)]
  | fuel + 1, k =>
    if f k then [.check true]
    else .check false :: .sleep :: poll_events f fuel (k + 1)

/-- Event trace of the `get_player_role` handler: the whole body — the player
lookup, the poll loop with its sleeps, and the return or the 408 raise — runs
inside a single `async with game_ctx` block, so the trace is one `acquire`, the
handler's events, then one `release` (the context manager releases on every exit
path).  `player_found` is whether the 404 lookup at the top succeeds; when it
fails the handler raises before reaching the loop. -/
def get_player_role_trace (player_found : Bool) (f : Nat → Bool) : List PollEvent :=
  .acquire ::
    ((if player_found then poll_events f ROLE_REVEAL_TIMEOUT_ATTEMPTS 0 else []) ++ [.release])

/-- `timer_state.py` `TimerState`: `is_running` and `seconds` with their class
defaults (`False`, `5 * 60`).  `seconds` is a Python `int`, embedded as `Int`. -/
structure TimerState where
  is_running : Bool := false
  seconds : Int := 5 * 60
deriving DecidableEq, Repr

/-- One iteration of the loop body of `timer_state.py` `TimerState.handle_tick`,
run under the timer lock: if running, push the current value to OBS (no state
change), then either decrement positive seconds, or stop, clamp to zero and play
the timer sound.  Returns the new state and whether the time's-up cue fired. -/
def TimerState.tick (s : TimerState) : TimerState × Bool :=
  if s.is_running then
    if s.seconds > 0 then
      ({ s with seconds := s.seconds - 1 }, false)
    else
      ({ is_running := false, seconds := 0 }, true)
  else
    (s, false)

/-- Run `n` iterations of the tick loop, counting how many times the cue fired. -/
def TimerState.run_ticks : Nat → TimerState → TimerState × Nat
  | 0, s => (s, 0)
  | n + 1, s =>
    let (s1, fired) := s.tick
    let (s2, count) := TimerState.run_ticks n s1
    (s2, (if fired then 1 else 0) + count)

/-- `obs_manager.py`: connection flag and reconnect delay of `ObsManager`
(`connected`, `_reconnect_delay` with initial value `1.0`, cap
`_max_reconnect_delay = 30.0`).  The delay only ever takes integral values
(doubling from 1, capped at 30), so it is embedded as `Nat`. -/
structure ObsConnection where
  connected : Bool := false
  reconnect_delay : Nat := 1
deriving DecidableEq, Repr

/-- `obs_manager.py` `ObsManager._try_connect`: on success set `connected` and
reset the backoff delay to 1; on failure just clear `connected`. -/
def try_connect (succeeds : Bool) (s : ObsConnection) : ObsConnection :=
  if succeeds then { connected := true, reconnect_delay := 1 }
  else { s with connected := false }

/-- One iteration of `obs_manager.py` `ObsManager._reconnect_loop`: sleep for
`reconnect_delay` seconds, attempt to connect, and on failure double the delay up
to the 30-second cap.  Returns the new state and the delay slept. -/
def reconnect_iteration (succeeds : Bool) (s : ObsConnection) : ObsConnection × Nat :=
  let slept := s.reconnect_delay
  let s1 := try_connect succeeds s
  if succeeds then (s1, slept)
  else ({ s1 with reconnect_delay := min (s1.reconnect_delay * 2) 30 }, slept)

/-- `obs_manager.py` `ObsManager._reconnect_loop`: iterate while not connected,
consuming one attempt outcome per iteration; collects the delays slept. -/
def reconnect_run : List Bool → ObsConnection → ObsConnection × List Nat
  | [], s => (s, [])
  | b :: rest, s =>
    if s.connected then (s, [])
    else
      let (s1, slept) := reconnect_iteration b s
      let (s2, delays) := reconnect_run rest s1
      (s2, slept :: delays)

/-- The backoff update applied after a failed attempt. -/
def backoff_next (d : Nat) : Nat := min (d * 2) 30

/-- The delay after `n` consecutive failed attempts, starting from delay `d`. -/
def backoff_iter : Nat → Nat → Nat
  | 0, d => d
  | n + 1, d => backoff_next (backoff_iter n d)

/-! ### Helper lemmas -/

/-- Delays collected while `n` consecutive failed attempts run, starting from delay `d`. -/
def backoff_delays : Nat → Nat → List Nat
  | 0, _ => []
  | n + 1, d => d :: backoff_delays n (backoff_next d)

theorem backoff_iter_succ_outer (n d : Nat) :
    backoff_iter (n + 1) d = backoff_iter n (backoff_next d) := by
  induction n generalizing d with
  | zero => rfl
  | succ m ih =>
    show backoff_next (backoff_iter (m + 1) d) = backoff_next (backoff_iter m (backoff_next d))
    rw [ih]

theorem reconnect_run_replicate_false (n : Nat) :
    ∀ s : ObsConnection, s.connected = false →
      reconnect_run (List.replicate n false) s =
        ({ connected := false, reconnect_delay := backoff_iter n s.reconnect_delay },
         backoff_delays n s.reconnect_delay) := by
  induction n with
  | zero =>
    intro s h
    cases s with
    | mk connected reconnect_delay =>
      simp only at h
      subst h
      rfl
  | succ m ih =>
    intro s h
    rw [List.replicate_succ]
    show reconnect_run (false :: List.replicate m false) s = _
    unfold reconnect_run
    rw [h]
    simp only [Bool.false_eq_true, if_false]
    have hstep : reconnect_iteration false s =
        ({ connected := false, reconnect_delay := backoff_next s.reconnect_delay },
         s.reconnect_delay) := by
      simp [reconnect_iteration, try_connect, backoff_next]
    rw [hstep]
    simp only
    rw [ih { connected := false, reconnect_delay := backoff_next s.reconnect_delay } rfl]
    simp [backoff_iter_succ_outer, backoff_delays]

theorem backoff_iter_one_eq_thirty (n : Nat) (h : 5 ≤ n) : backoff_iter n 1 = 30 := by
  obtain ⟨m, rfl⟩ : ∃ m, n = m + 5 := ⟨n - 5, by omega⟩
  clear h
  induction m with
  | zero => decide
  | succ k ih =>
    show backoff_next (backoff_iter (k + 5) 1) = 30
    rw [ih]
    decide

theorem backoff_delays_getLast (n : Nat) :
    ∀ d, (backoff_delays (n + 1) d).getLast? = some (backoff_iter n d) := by
  induction n with
  | zero => intro d; rfl
  | succ m ih =>
    intro d
    show (d :: backoff_delays (m + 1) (backoff_next d)).getLast? = _
    rw [show backoff_delays (m + 1) (backoff_next d) =
          backoff_next d :: backoff_delays m (backoff_next (backoff_next d)) from rfl]
    rw [List.getLast?_cons_cons]
    rw [show backoff_next d :: backoff_delays m (backoff_next (backoff_next d)) =
          backoff_delays (m + 1) (backoff_next d) from rfl]
    rw [ih (backoff_next d)]
    rw [backoff_iter_succ_outer]

/-! ### Claim C3 — timer run-down -/

/-- Claim C3 counterexample: starting from `seconds = 3, is_running = true`, after
exactly 3 iterations of the tick loop the state is NOT
`seconds = 0, is_running = false` with the cue fired once — the timer still shows
`is_running = true` and no cue has fired, because `handle_tick` decrements while
`seconds > 0` and only stops (and plays the sound) on the tick that arrives with
`seconds = 0`. -/
theorem timer_three_ticks_claim_false :
    ¬ ((TimerState.run_ticks 3 { is_running := true, seconds := 3 }).1
         = { is_running := false, seconds := 0 } ∧
       (TimerState.run_ticks 3 { is_running := true, seconds := 3 }).2 = 1) := by
  decide

/-- Claim C3 amended: from `seconds = 3, is_running = true`, 3 ticks leave
`seconds = 0` with `is_running` still `true` and no cue fired; the 4th tick sets
`is_running = false`, keeps `seconds = 0`, and fires the time's-up cue exactly
once; a 5th tick changes nothing and fires no further cue. -/
theorem timer_run_down_amended :
    TimerState.run_ticks 3 { is_running := true, seconds := 3 }
        = ({ is_running := true, seconds := 0 }, 0) ∧
    TimerState.run_ticks 4 { is_running := true, seconds := 3 }
        = ({ is_running := false, seconds := 0 }, 1) ∧
    TimerState.run_ticks 5 { is_running := true, seconds := 3 }
        = ({ is_running := false, seconds := 0 }, 1) := by
  decide

/-! ### Claim C5 — reconnect backoff -/

/-- Claim C5: starting from `retry_delay = 1` in the disconnected state, six
consecutive failed reconnect attempts sleep exactly 1, 2, 4, 8, 16, 30 seconds; a
7th failure sleeps 30 again; after any `n ≥ 5` consecutive failures the stored
delay is 30, so every subsequent failure sleeps the 30-second cap; and a
successful `_try_connect` resets the delay to 1 from any state. -/
theorem reconnect_backoff_sequence :
    (reconnect_run (List.replicate 6 false) { connected := false, reconnect_delay := 1 }).2
        = [1, 2, 4, 8, 16, 30] ∧
    (reconnect_run (List.replicate 7 false) { connected := false, reconnect_delay := 1 }).2
        = [1, 2, 4, 8, 16, 30, 30] ∧
    (∀ n : Nat, 5 ≤ n →
      (reconnect_run (List.replicate n false)
          { connected := false, reconnect_delay := 1 }).1.reconnect_delay = 30 ∧
      (reconnect_run (List.replicate (n + 1) false)
          { connected := false, reconnect_delay := 1 }).2.getLast? = some 30) ∧
    (∀ s : ObsConnection, (try_connect true s).reconnect_delay = 1) := by
  refine ⟨by decide, by decide, ?_, ?_⟩
  · intro n hn
    constructor
    · rw [reconnect_run_replicate_false n _ rfl]
      exact backoff_iter_one_eq_thirty n hn
    · rw [reconnect_run_replicate_false (n + 1) _ rfl]
      show (backoff_delays (n + 1) 1).getLast? = some 30
      rw [backoff_delays_getLast n 1]
      rw [backoff_iter_one_eq_thirty n hn]
  · intro s
    rfl

/-- Claim C5 witness: the `n ≥ 5` clause of `reconnect_backoff_sequence`
instantiated at `n = 6`. -/
theorem reconnect_backoff_sequence_witness :
    5 ≤ 6 ∧
    ((reconnect_run (List.replicate 6 false)
        { connected := false, reconnect_delay := 1 }).1.reconnect_delay = 30 ∧
     (reconnect_run (List.replicate 7 false)
        { connected := false, reconnect_delay := 1 }).2.getLast? = some 30) :=
  ⟨by decide, reconnect_backoff_sequence.2.2.1 6 (by decide)⟩

/-! ### Claim C6 — pool invariant under `include_role` -/

/-- A game (Trouble Brewing script) that already includes the Imp once: the
aggregate invariant holds for it. -/
def imp_included_game : Game :=
  { script := trouble_brewing
    included_roles := [imp]
    players := [] }

/-- Claim C6 evaluation at the failing input: `include_role` performs no duplicate
check, so including "Imp" in a game whose pool already holds the Imp yields a pool
in which the Imp appears twice — the operation does not preserve the "each
character appears at most once in `included_roles`" invariant. -/
theorem include_role_permits_duplicate_roles :
    ∃ g2 : Game, imp_included_game.include_role "Imp" = .ok g2 ∧
      g2.included_roles = [imp, imp] ∧
      g2.included_roles.count imp = 2 :=
  ⟨{ imp_included_game with included_roles := [imp, imp] }, by rfl, by rfl, by decide⟩

/-! ### Claim C7 — night-phase defaults -/

/-- Claim C7: every game `Game.__init__` successfully creates has the night-phase
bookmark at its default: `current_night_step = "Dusk"` and `is_first_night = true`. -/
theorem new_game_night_phase_defaults (sn : ScriptName) (g : Game)
    (h : Game.new sn = .ok g) :
    g.current_night_step = "Dusk" ∧ g.is_first_night = true := by
  cases sn with
  | trouble_brewing =>
    simp only [Game.new, get_script_by_name, Except.ok.injEq] at h
    subst h
    exact ⟨rfl, rfl⟩
  | sects_and_violets => exact absurd h (by simp [Game.new, get_script_by_name])
  | bad_moon_rising => exact absurd h (by simp [Game.new, get_script_by_name])

/-- Claim C7 witness: `new_game_night_phase_defaults` applied to the game created
for the Trouble Brewing script. -/
theorem new_game_night_phase_defaults_witness :
    Game.new .trouble_brewing
        = .ok { script := trouble_brewing, included_roles := [], players := [] } ∧
    (({ script := trouble_brewing, included_roles := [], players := [] } :
        Game).current_night_step = "Dusk" ∧
     ({ script := trouble_brewing, included_roles := [], players := [] } :
        Game).is_first_night = true) :=
  ⟨rfl, new_game_night_phase_defaults .trouble_brewing _ rfl⟩

/-! ### Claim C2 — lock held across the poll loop -/

theorem poll_events_succ_true {f : Nat → Bool} {k : Nat} (fuel : Nat) (hf : f k = true) :
    poll_events f (fuel + 1) k = [.check true] := by
  simp [poll_events, hf]

theorem poll_events_succ_false {f : Nat → Bool} {k : Nat} (fuel : Nat) (hf : f k = false) :
    poll_events f (fuel + 1) k = .check false :: .sleep :: poll_events f fuel (k + 1) := by
  simp [poll_events, hf]

theorem poll_events_count (f : Nat → Bool) :
    ∀ fuel k, (poll_events f fuel k).count .acquire = 0 ∧
      (poll_events f fuel k).count .release = 0 ∧
      (poll_events f fuel k).count .sleep ≤ fuel := by
  intro fuel
  induction fuel with
  | zero =>
    intro k
    cases hf : f k <;> simp only [poll_events, hf] <;> exact ⟨by decide, by decide, by decide⟩
  | succ m ih =>
    intro k
    obtain ⟨ha, hr, hs⟩ := ih (k + 1)
    cases hf : f k
    · rw [poll_events_succ_false m hf]
      simp only [List.count_cons, ha, hr]
      refine ⟨by decide, by decide, ?_⟩
      have h1 : (if (PollEvent.sleep == PollEvent.sleep) = true then 1 else 0) = 1 := by decide
      have h2 : (if (PollEvent.check false == PollEvent.sleep) = true then 1 else 0) = 0 := by
        decide
      omega
    · rw [poll_events_succ_true m hf]
      exact ⟨by decide, by decide, by simp⟩

/-- Claim C2: the role-fetch handler runs its entire body — the first (and every)
check of `should_reveal_roles`, all poll sleeps, and the final return or 408
raise — inside a single acquisition of the exclusive session lock.  In its event
trace the lock acquisition is the very first event, the release is the very last
event, and each occurs exactly once, so every check and every sleep happens while
the lock is held and the lock is never released between poll iterations; at most
`ROLE_REVEAL_TIMEOUT_ATTEMPTS = 100` sleeps occur. -/
theorem get_player_role_holds_lock_across_wait (player_found : Bool) (f : Nat → Bool) :
    (get_player_role_trace player_found f).head? = some .acquire ∧
    (get_player_role_trace player_found f).getLast? = some .release ∧
    (get_player_role_trace player_found f).count .acquire = 1 ∧
    (get_player_role_trace player_found f).count .release = 1 ∧
    (get_player_role_trace player_found f).count .sleep ≤ ROLE_REVEAL_TIMEOUT_ATTEMPTS := by
  obtain ⟨ha, hr, hs⟩ := poll_events_count f ROLE_REVEAL_TIMEOUT_ATTEMPTS 0
  cases player_found
  · have htr : get_player_role_trace false f = [.acquire, .release] := by
      simp [get_player_role_trace]
    rw [htr]
    exact ⟨rfl, rfl, by decide, by decide, by decide⟩
  · have htr : get_player_role_trace true f =
        .acquire :: (poll_events f ROLE_REVEAL_TIMEOUT_ATTEMPTS 0 ++ [.release]) := by
      simp [get_player_role_trace]
    rw [htr]
    refine ⟨rfl, ?_, ?_, ?_, ?_⟩
    · rw [← List.cons_append]
      exact List.getLast?_concat _
    · have h1 : ([PollEvent.release].count PollEvent.acquire) = 0 := by decide
      simp only [List.count_cons, List.count_append, ha, h1]
      decide
    · have h1 : ([PollEvent.release].count PollEvent.release) = 1 := by decide
      simp only [List.count_cons, List.count_append, hr, h1]
      decide
    · have h1 : ([PollEvent.release].count PollEvent.sleep) = 0 := by decide
      have h2 : (if (PollEvent.acquire == PollEvent.sleep) = true then 1 else 0) = 0 := by
        decide
      simp only [List.count_cons, List.count_append, h1, h2]
      omega

/-! ### Claim C4 — bounded reveal wait -/

theorem polling_attempts_from_succ_true {f : Nat → Bool} {k : Nat} (fuel : Nat)
    (hf : f k = true) : polling_attempts_from f (fuel + 1) k = k := by
  simp [polling_attempts_from, hf]

theorem polling_attempts_from_succ_false {f : Nat → Bool} {k : Nat} (fuel : Nat)
    (hf : f k = false) :
    polling_attempts_from f (fuel + 1) k = polling_attempts_from f fuel (k + 1) := by
  simp [polling_attempts_from, hf]

theorem polling_attempts_from_all_false (f : Nat → Bool) :
    ∀ fuel k, (∀ j, k ≤ j → j < k + fuel → f j = false) →
      polling_attempts_from f fuel k = k + fuel := by
  intro fuel
  induction fuel with
  | zero => intro k _; simp [polling_attempts_from]
  | succ m ih =>
    intro k h
    have hf : f k = false := h k (Nat.le_refl k) (by omega)
    rw [polling_attempts_from_succ_false m hf]
    have := ih (k + 1) (fun j hj1 hj2 => h j (by omega) (by omega))
    omega

theorem polling_attempts_from_lt_of_true (f : Nat → Bool) :
    ∀ fuel k j, k ≤ j → j < k + fuel → f j = true →
      polling_attempts_from f fuel k < k + fuel := by
  intro fuel
  induction fuel with
  | zero => intro k j h1 h2 _; omega
  | succ m ih =>
    intro k j h1 h2 hj
    cases hf : f k
    · rw [polling_attempts_from_succ_false m hf]
      have hne : j ≠ k := by
        rintro rfl
        rw [hj] at hf
        cases hf
      have := ih (k + 1) j (by omega) (by omega) hj
      omega
    · rw [polling_attempts_from_succ_true m hf]
      omega

/-- Claim C4 amended: the wait succeeds exactly when some one of the first 100
checks (those made with `polling_attempts < 100`, i.e. before the final,
discarded, check) reads the flag as true — so it succeeds immediately when the
flag is already true (with zero sleeps), it times out when the flag is false at
every check, and a flip observed at any of the first 100 checks yields success;
but a flip first observed at the final check (after the 100th sleep) still times
out (see the counterexample theorem). -/
theorem reveal_wait_contract (f : Nat → Bool) :
    (wait_for_reveal f = .success ↔
      ∃ k, k < ROLE_REVEAL_TIMEOUT_ATTEMPTS ∧ f k = true) ∧
    (f 0 = true → polling_attempts f = 0) := by
  constructor
  · constructor
    · intro hsucc
      by_contra hno
      push_neg at hno
      have hall : ∀ j, 0 ≤ j → j < 0 + ROLE_REVEAL_TIMEOUT_ATTEMPTS → f j = false := by
        intro j _ hj
        have := hno j (by omega)
        simpa using this
      have hval : polling_attempts f = ROLE_REVEAL_TIMEOUT_ATTEMPTS := by
        have := polling_attempts_from_all_false f ROLE_REVEAL_TIMEOUT_ATTEMPTS 0 hall
        simpa [polling_attempts] using this
      rw [wait_for_reveal, hval, if_pos (Nat.le_refl _)] at hsucc
      cases hsucc
    · rintro ⟨k, hk, hfk⟩
      have hlt := polling_attempts_from_lt_of_true f ROLE_REVEAL_TIMEOUT_ATTEMPTS 0 k
        (Nat.zero_le k) (by omega) hfk
      rw [wait_for_reveal, if_neg]
      simp only [polling_attempts]
      omega
  · intro h0
    show polling_attempts_from f ROLE_REVEAL_TIMEOUT_ATTEMPTS 0 = 0
    exact polling_attempts_from_succ_true 99 h0

/-- Claim C4 witness: `reveal_wait_contract` applied to the schedule whose flag is
already true at the first check. -/
theorem reveal_wait_contract_witness :
    wait_for_reveal (fun _ => true) = .success ∧
    polling_attempts (fun _ => true) = 0 :=
  ⟨(reveal_wait_contract (fun _ => true)).1.mpr ⟨0, by decide, rfl⟩,
   (reveal_wait_contract (fun _ => true)).2 rfl⟩

/-- A flag schedule that first reads true at check index `n` (the flag flips while
the run is still waiting, during the `n`-th sleep). -/
def flag_from (n : Nat) : Nat → Bool := fun k => decide (n ≤ k)

/-- Claim C4 counterexample: with the flag false at each of the first 100 checks
and true from then on — i.e. the flag flips mid-wait, during the final sleep —
the handler's last poll reads the flag as true, yet the wait still raises the
408 timeout rather than succeeding, because the loop also exits on
`polling_attempts < 100` and the timeout test looks only at the attempt count. -/
theorem reveal_wait_flip_during_final_sleep_times_out :
    (∀ k, k < 100 → flag_from 100 k = false) ∧
    (poll_events (flag_from 100) ROLE_REVEAL_TIMEOUT_ATTEMPTS 0).getLast?
        = some (.check true) ∧
    wait_for_reveal (flag_from 100) = .timeout ∧
    ¬ wait_for_reveal (flag_from 100) = .success := by
  refine ⟨by decide, by decide, by decide, by decide⟩

/-! ### Claim C8 — validate-before-mutate -/

theorem resolve_roles_error_of_unresolved (g : Game) :
    ∀ (names : List String) (bad : String), bad ∈ names →
      g.script.get_character bad = none →
      ∃ e, resolve_roles g names = .error e ∧ e.status = 400 := by
  intro names
  induction names with
  | nil => intro bad h _; cases h
  | cons n rest ih =>
    intro bad hmem hnone
    cases hchar : g.script.get_character n with
    | none =>
      exact ⟨{ status := 400, detail := "Role not found: " ++ n },
        by simp [resolve_roles, hchar], rfl⟩
    | some c =>
      have hbadne : bad ≠ n := by
        rintro rfl
        rw [hnone] at hchar
        cases hchar
      have hbadrest : bad ∈ rest := by
        cases hmem with
        | head => exact absurd rfl hbadne
        | tail _ h => exact h
      obtain ⟨e, he, hs⟩ := ih bad hbadrest hnone
      refine ⟨e, ?_, hs⟩
      simp [resolve_roles, hchar, he, Except.map]

/-- Claim C8: when any requested name in a multi-role add does not resolve to a
character of the script, the whole operation fails with a 400 error and the game
— in particular `included_roles` — is returned unchanged, because `add_role_multi`
resolves every name before appending anything; and adding a player whose name
duplicates an existing player's fails with 409 Conflict and leaves the game
unchanged, because the duplicate check precedes any mutation. -/
theorem multi_role_add_and_add_player_atomic
    (g : Game) (names : List String) (bad : String) (pname : String) (p : Player)
    (choice : Nat)
    (hbad : bad ∈ names) (hnone : g.script.get_character bad = none)
    (hdup : g.get_player_by_name pname = some p) :
    ((add_role_multi g names).1 = g ∧
      ∃ e, (add_role_multi g names).2 = .error e ∧ e.status = 400) ∧
    ((route_add_player g pname choice).1 = g ∧
      (route_add_player g pname choice).2 =
        .error { status := 409,
                 detail := "Player with name " ++ pname ++ " already exists." }) := by
  obtain ⟨e, he, hs⟩ := resolve_roles_error_of_unresolved g names bad hbad hnone
  refine ⟨⟨?_, e, ?_, hs⟩, ?_, ?_⟩
  · simp [add_role_multi, he]
  · simp [add_role_multi, he]
  · simp [route_add_player, hdup]
  · simp [route_add_player, hdup]

/-- A game holding the Chef in the pool and a player named Alice, for the C8 witness. -/
def conflict_demo_game : Game :=
  { script := trouble_brewing
    included_roles := [chef]
    players := [Player.new "Alice" imp] }

/-- Claim C8 witness: `multi_role_add_and_add_player_atomic` at a request mixing a
valid name with an unknown one, against a game already containing player Alice. -/
theorem multi_role_add_and_add_player_atomic_witness :
    ("Missing" ∈ ["Imp", "Missing"] ∧
      conflict_demo_game.script.get_character "Missing" = none ∧
      conflict_demo_game.get_player_by_name "Alice" = some (Player.new "Alice" imp)) ∧
    (((add_role_multi conflict_demo_game ["Imp", "Missing"]).1 = conflict_demo_game ∧
      ∃ e, (add_role_multi conflict_demo_game ["Imp", "Missing"]).2 = .error e ∧
        e.status = 400) ∧
     ((route_add_player conflict_demo_game "Alice" 0).1 = conflict_demo_game ∧
      (route_add_player conflict_demo_game "Alice" 0).2 =
        .error { status := 409,
                 detail := "Player with name " ++ "Alice" ++ " already exists." })) :=
  ⟨⟨by decide, by rfl, by rfl⟩,
   multi_role_add_and_add_player_atomic conflict_demo_game ["Imp", "Missing"] "Missing"
     "Alice" (Player.new "Alice" imp) 0 (by decide) (by rfl) (by rfl)⟩

/-! ### Claim C9 — include / assign / remove round trip -/

/-- Claim C9: for a character that the script lookup resolves to itself and a
player name not already in the game: including the character, adding a player
assigned that character, and then removing that player by name leaves
`included_roles` containing the character again. -/
theorem include_assign_remove_round_trip
    (g : Game) (c : Character) (pname : String)
    (hc : g.script.get_character c.name = some c)
    (hfresh : g.get_player_by_name pname = none) :
    ∃ g1 g2 pl g3,
      g.include_role c.name = .ok g1 ∧
      g1.add_player_with_character pname c = (g2, pl) ∧
      g2.remove_player_by_name pname = .ok g3 ∧
      c ∈ g3.included_roles := by
  have h1 : g.include_role c.name = .ok { g with included_roles := g.included_roles ++ [c] } := by
    simp [Game.include_role, hc]
  have hfind : (g.players ++ [Player.new pname c]).find? (fun player => player.name == pname)
      = some (Player.new pname c) := by
    rw [List.find?_append]
    rw [show g.players.find? (fun player => player.name == pname) = none from hfresh]
    simp [List.find?, Player.new]
  have hfind2 :
      (Game.get_player_by_name
          { g with included_roles := (g.included_roles ++ [c]).erase c
                   players := g.players ++ [Player.new pname c] } pname)
        = some (Player.new pname c) := hfind
  refine ⟨{ g with included_roles := g.included_roles ++ [c] },
    { g with included_roles := (g.included_roles ++ [c]).erase c
             players := g.players ++ [Player.new pname c] },
    Player.new pname c,
    { g with included_roles := ((g.included_roles ++ [c]).erase c)
                ++ [(Player.new pname c).character]
             players := (g.players ++ [Player.new pname c]).erase (Player.new pname c) },
    h1, rfl, ?_, ?_⟩
  · simp [Game.remove_player_by_name, hfind2]
  · simp [Player.new]

/-- A fresh Trouble Brewing game (empty pool, no players), for witnesses. -/
def fresh_tb_game : Game :=
  { script := trouble_brewing
    included_roles := []
    players := [] }

/-- Claim C9 witness: `include_assign_remove_round_trip` for the Imp and player
name Alice on a fresh game. -/
theorem include_assign_remove_round_trip_witness :
    (fresh_tb_game.script.get_character imp.name = some imp ∧
      fresh_tb_game.get_player_by_name "Alice" = none) ∧
    (∃ g1 g2 pl g3,
      fresh_tb_game.include_role imp.name = .ok g1 ∧
      g1.add_player_with_character "Alice" imp = (g2, pl) ∧
      g2.remove_player_by_name "Alice" = .ok g3 ∧
      imp ∈ g3.included_roles) :=
  ⟨⟨by rfl, by rfl⟩,
   include_assign_remove_round_trip fresh_tb_game imp "Alice" (by rfl) (by rfl)⟩

/-! ### Claim C10 — case- and whitespace-insensitive role lookup -/

theorem find?_congr_pred {α : Type} (l : List α) (p q : α → Bool) (h : ∀ x, p x = q x) :
    l.find? p = l.find? q := by
  induction l with
  | nil => rfl
  | cons a t ih => simp only [List.find?_cons, h a, ih]

theorem is_named_self (c : Character) : c.is_named c.name = true := by
  simp [Character.is_named]

theorem find_named_of_unique :
    ∀ (l : List Character) (c : Character), c ∈ l →
      (∀ c' ∈ l, c'.is_named c.name = true → c' = c) →
      l.find? (fun x => x.is_named c.name) = some c := by
  intro l
  induction l with
  | nil => intro c h _; cases h
  | cons a t ih =>
    intro c hmem hu
    cases hn : a.is_named c.name
    · have hca : c ≠ a := by
        rintro rfl
        rw [is_named_self] at hn
        cases hn
      have hct : c ∈ t := by
        cases hmem with
        | head => exact absurd rfl hca
        | tail _ h => exact h
      rw [List.find?_cons, hn]
      exact ih c hct (fun c' hc' hname => hu c' (List.mem_cons_of_mem a hc') hname)
    · have : a = c := hu a (List.mem_cons_self a t) hn
      subst this
      rw [List.find?_cons, hn]

/-- Claim C10: role-name matching in `include_role`, `remove_role` and
`add_player_with_role` is insensitive to letter case and surrounding whitespace:
for a character of the game and any string with the same normalized form as the
character's name, each lookup resolves to that same character (the character is
assumed to be the unique one of that name in the list searched, which is what
"that same character" presupposes). -/
theorem role_lookup_case_and_whitespace_insensitive
    (g : Game) (c : Character) (s pname : String)
    (hs : normalize_name_for_comparison s = normalize_name_for_comparison c.name)
    (hmem : c ∈ g.included_roles)
    (huniq : ∀ c' ∈ g.included_roles, c'.is_named c.name = true → c' = c)
    (hmem2 : c ∈ g.script.characters)
    (huniq2 : ∀ c' ∈ g.script.characters, c'.is_named c.name = true → c' = c) :
    g.script.get_character s = some c ∧
    g.include_role s = .ok { g with included_roles := g.included_roles ++ [c] } ∧
    g.remove_role s = .ok { g with included_roles := g.included_roles.erase c } ∧
    g.add_player_with_role pname s = .ok (g.add_player_with_character pname c) := by
  have hpred : ∀ x : Character, x.is_named s = x.is_named c.name := by
    intro x
    simp [Character.is_named, hs]
  have hget : g.script.get_character s = some c := by
    show g.script.characters.find? (fun x => x.is_named s) = some c
    rw [find?_congr_pred _ _ _ hpred]
    exact find_named_of_unique _ c hmem2 huniq2
  have hfind1 : g.included_roles.find? (fun x => x.is_named s) = some c := by
    rw [find?_congr_pred _ _ _ hpred]
    exact find_named_of_unique _ c hmem huniq
  have hne : ¬ g.included_roles.length = 0 := by
    have hnil := List.ne_nil_of_mem hmem
    intro h
    exact hnil (List.length_eq_zero.mp h)
  refine ⟨hget, ?_, ?_, ?_⟩
  · simp [Game.include_role, hget]
  · simp [Game.remove_role, hfind1]
  · simp [Game.add_player_with_role, hne, hfind1]

/-- A game holding exactly the Imp in its pool, for the C10 witness. -/
def imp_pool_game : Game :=
  { script := trouble_brewing
    included_roles := [imp]
    players := [] }

/-- Claim C10 witness: the lookups on `imp_pool_game` resolve the string
`"  iMP "` — the Imp's name up to case and surrounding whitespace — to the Imp. -/
theorem role_lookup_case_and_whitespace_insensitive_witness :
    (normalize_name_for_comparison "  iMP "
        = normalize_name_for_comparison imp.name ∧
      imp ∈ imp_pool_game.included_roles ∧
      imp ∈ imp_pool_game.script.characters) ∧
    (imp_pool_game.script.get_character "  iMP " = some imp ∧
     imp_pool_game.include_role "  iMP "
        = .ok { imp_pool_game with included_roles := imp_pool_game.included_roles ++ [imp] } ∧
     imp_pool_game.remove_role "  iMP "
        = .ok { imp_pool_game with included_roles := imp_pool_game.included_roles.erase imp } ∧
     imp_pool_game.add_player_with_role "Alice" "  iMP "
        = .ok (imp_pool_game.add_player_with_character "Alice" imp)) :=
  ⟨⟨by rfl, by decide, by decide⟩,
   role_lookup_case_and_whitespace_insensitive imp_pool_game imp "  iMP " "Alice"
     (by rfl) (by decide) (by decide) (by decide) (by decide)⟩

/-! ### Claim C1 — status-effect cascade on death -/

/-- Claim C1: for a player `p` of the game whose `is_alive` is true, setting their
alive status to false succeeds and, in the resulting game, every player other
than `p` keeps exactly those status effects whose names are not among the
persistent effect names of `p`'s character (the effects in that set are removed,
all others untouched, and nothing is added), while `p`'s entry is marked dead;
and a set-alive with new value true never changes any player's status effects
(resurrection performs no cleanup and restores nothing). -/
theorem set_alive_false_cascades_persistent_effects
    (g : Game) (pname : String) (p : Player)
    (hp : g.get_player_by_name pname = some p)
    (halive : p.is_alive = true) :
    (∃ g', g.set_player_alive_status pname false = .ok g' ∧
      g'.players.length = g.players.length ∧
      (∀ q ∈ g.players, q.name ≠ p.name →
        ∃ q' ∈ g'.players, q'.name = q.name ∧ q'.character = q.character ∧
          ∀ e, e ∈ q'.status_effects ↔
            (e ∈ q.status_effects ∧ e ∉ p.character.persistent_effect_names)) ∧
      (∃ p' ∈ g'.players, p'.name = p.name ∧ p'.is_alive = false)) ∧
    (∀ (g2 : Game) (n2 : String) (g2' : Game),
      g2.set_player_alive_status n2 true = .ok g2' →
      ∀ i : Nat, g2'.players[i]?.map Player.status_effects
        = g2.players[i]?.map Player.status_effects) := by
  constructor
  · refine ⟨{ g with players := g.players.map (fun q =>
        if q.name = p.name then { q with is_alive := false }
        else { q with status_effects := (q.status_effects.filter
                (fun e => decide (e ∉ p.character.persistent_effect_names))) }) },
      ?_, ?_, ?_, ?_⟩
    · simp only [Game.set_player_alive_status, hp, halive]
      rfl
    · simp
    · intro q hq hne
      refine ⟨{ q with status_effects := (q.status_effects.filter
          (fun e => decide (e ∉ p.character.persistent_effect_names))) },
        List.mem_map.mpr ⟨q, hq, by rw [if_neg hne]⟩, rfl, rfl, ?_⟩
      intro e
      simp [List.mem_filter]
    · refine ⟨{ p with is_alive := false },
        List.mem_map.mpr ⟨p, List.mem_of_find?_eq_some hp, by rw [if_pos rfl]⟩, rfl, rfl⟩
  · intro g2 n2 g2' h i
    cases hfind : g2.get_player_by_name n2 with
    | none =>
      simp [Game.set_player_alive_status, hfind] at h
    | some q =>
      simp only [Game.set_player_alive_status, hfind, Bool.not_true, Bool.and_false,
        Bool.false_eq_true, if_false, Except.ok.injEq] at h
      subst h
      show ((g2.players.map _)[i]?).map Player.status_effects = _
      rw [List.getElem?_map]
      cases g2.players[i]? with
      | none => rfl
      | some x =>
        show some (if x.name = q.name then { x with is_alive := true } else x).status_effects
            = some x.status_effects
        by_cases hx : x.name = q.name
        · rw [if_pos hx]
        · rw [if_neg hx]

/-- The spec's cascade example: A is the Poisoner (alive), B holds effects
Poisoned and Safe, C holds Poisoned. -/
def cascade_demo_game : Game :=
  { script := trouble_brewing
    included_roles := []
    players :=
      [{ name := "A", character := poisoner, alignment := poisoner.alignment,
         status_effects := [] },
       { name := "B", character := chef, alignment := chef.alignment,
         status_effects := ["Poisoned", "Safe"] },
       { name := "C", character := empath, alignment := empath.alignment,
         status_effects := ["Poisoned"] }] }

/-- Claim C1 witness: `set_alive_false_cascades_persistent_effects` applied to the
spec's example game, killing the Poisoner A. -/
theorem set_alive_false_cascades_persistent_effects_witness :
    (cascade_demo_game.get_player_by_name "A"
        = some { name := "A", character := poisoner, alignment := poisoner.alignment,
                 status_effects := [] } ∧
      ({ name := "A", character := poisoner, alignment := poisoner.alignment,
         status_effects := [] } : Player).is_alive = true) ∧
    ((∃ g', cascade_demo_game.set_player_alive_status "A" false = .ok g' ∧
      g'.players.length = cascade_demo_game.players.length ∧
      (∀ q ∈ cascade_demo_game.players,
        q.name ≠ ({ name := "A", character := poisoner, alignment := poisoner.alignment,
                    status_effects := [] } : Player).name →
        ∃ q' ∈ g'.players, q'.name = q.name ∧ q'.character = q.character ∧
          ∀ e, e ∈ q'.status_effects ↔
            (e ∈ q.status_effects ∧
              e ∉ ({ name := "A", character := poisoner, alignment := poisoner.alignment,
                     status_effects := [] } : Player).character.persistent_effect_names)) ∧
      (∃ p' ∈ g'.players,
        p'.name = ({ name := "A", character := poisoner, alignment := poisoner.alignment,
                     status_effects := [] } : Player).name ∧ p'.is_alive = false)) ∧
    (∀ (g2 : Game) (n2 : String) (g2' : Game),
      g2.set_player_alive_status n2 true = .ok g2' →
      ∀ i : Nat, g2'.players[i]?.map Player.status_effects
        = g2.players[i]?.map Player.status_effects)) :=
  ⟨⟨by rfl, by rfl⟩,
   set_alive_false_cascades_persistent_effects cascade_demo_game "A"
     { name := "A", character := poisoner, alignment := poisoner.alignment,
       status_effects := [] } (by rfl) (by rfl)⟩

end DeathsDoor
